import Mathlib

/-!
Shallow embedding of the validation framework's protocol core:
the signal codec and blocking wait/assert primitives of
`middleware/broker.py` (`InteractionBroker`), the port factory of
`hal/implementations/hal_manager.py` (`HalManager`), and the
precondition transaction engine of
`services/precondition_service.py` (`PreconditionService`).

Python values flowing through the broker are either symbolic strings
(enum keys) or integers (raw payload bytes / numeric signal values);
`Value` is that universe.  Exceptions are modelled by `Fault`.
Real time is abstracted: an in-memory CAN port (`MockCanPort`) is its
FIFO receive queue, a `List CanMessage`; `receive` pops the head and an
empty queue stands for "no frame arrives before the deadline", so the
broker's polling loops become structural recursion over the queue.
-/

/-- A Python value observed by the broker: an enum symbol or an integer. -/
inductive Value : Type
  | str (s : String)
  | int (z : Int)
deriving DecidableEq

/-- The exception taxonomy of the framework, carrying the message text.
`keyError`, `valueError` and `overflowError` are Python builtins raised by
catalog lookups, enum encoding and `int.to_bytes`; the rest come from
`hal/exceptions.py` and `middleware/exceptions.py`. -/
inductive Fault : Type
  | sutFault (msg : String)
  | envFault (msg : String)
  | canError (msg : String)
  | keyError (msg : String)
  | valueError (msg : String)
  | overflowError (msg : String)
deriving DecidableEq

/-- Model of `str(exc)` in Python: the message the exception carries. -/
def Fault.text : Fault → String
  | .sutFault m => m
  | .envFault m => m
  | .canError m => m
  | .keyError m => m
  | .valueError m => m
  | .overflowError m => m

/-- Model of `str(value)` as the broker applies it to a `Value`. -/
def Value.strOf : Value → String
  | .str s => s
  | .int z => toString z

/-- Model of `repr(value)` (the `!r` format spec) for the `Value` universe:
strings are quoted, integers are printed as-is. -/
def Value.reprOf : Value → String
  | .str s => "\x27" ++ s ++ "\x27"
  | .int z => toString z

/-- Model of `hal/types/can_types.py` `CanMessage`: a CAN frame.  `data` is the byte
sequence (each entry < 256 whenever produced by the codec); the capture
timestamp is dropped, nothing in the embedded code reads it. -/
structure CanMessage : Type where
  can_id : Nat
  data : List Nat
  is_extended_id : Bool := false
deriving DecidableEq

/-- Model of `config_loader/models.py` `PayloadDefinition`: payload codec details of
a signal.  `type` is the raw string (the pydantic validator accepts
`"enum"`, `"uint"`, `"int"`); `mapping` is the ordered symbol → byte
dictionary, keys unique (it is a Python `dict`). -/
structure PayloadDefinition : Type where
  type : String
  mapping : List (String × Int) := []
deriving DecidableEq

/-- The pydantic validator on `PayloadDefinition.type`. -/
def PayloadDefinition.validType (t : String) : Bool :=
  t = "enum" ∨ t = "uint" ∨ t = "int"

/-- Model of `config_loader/models.py` `SignalDefinition`: one configured CAN signal. -/
structure SignalDefinition : Type where
  name : String
  bus : String
  can_id : Nat
  payload : PayloadDefinition
deriving DecidableEq

/-- Python `str.upper()` for the ASCII strings the catalogs carry:
upper-case every character.  (Stated over the character list so that it
evaluates by kernel reduction; `String.toUpper` is the same map.) -/
def pyUpper (s : String) : String := ⟨s.data.map Char.toUpper⟩

namespace InteractionBroker

/-- Model of `int(value)` as used by `_encode` on non-enum payloads: integers pass
through, strings are parsed, anything unparsable raises `ValueError`. -/
def toIntVal : Value → Except Fault Int
  | .int z => .ok z
  | .str s =>
    match s.toInt? with
    | some z => .ok z
    | none => .error (.valueError ("invalid literal for int: " ++ "\x27" ++ s ++ "\x27"))

/-- Model of `payload_value.to_bytes(1, byteorder="big")`: one unsigned big-endian
byte.  Negative values and values ≥ 256 raise `OverflowError`. -/
def toBytes1 (z : Int) : Except Fault (List Nat) :=
  if z < 0 then .error (.overflowError "cannot convert negative int to unsigned")
  else if 256 ≤ z then .error (.overflowError "int too big to convert")
  else .ok [z.toNat]

/-- Model of `int.from_bytes(message.data[:1], byteorder="big")`: the first byte,
`0` when the data is empty. -/
def fromBytes1 (data : List Nat) : Nat := data.headD 0

/-- Model of `InteractionBroker._encode`: build the one-byte frame for `value`.
Enum payloads look the upper-cased string form of the value up in the
mapping (a missing key raises `ValueError` naming the signal); all other
payload types cast the value to an integer.  Either way the payload is
rendered with `to_bytes(1, "big")`. -/
def _encode (d : SignalDefinition) (value : Value) : Except Fault CanMessage :=
  if d.payload.type = "enum" then
    match d.payload.mapping.lookup (pyUpper (Value.strOf value)) with
    | some pv =>
      (toBytes1 pv).map (fun bytes => { can_id := d.can_id, data := bytes })
    | none =>
      .error (.valueError
        ("Value " ++ Value.reprOf value ++ " is not valid for signal " ++ d.name))
  else
    match toIntVal value with
    | .ok pv => (toBytes1 pv).map (fun bytes => { can_id := d.can_id, data := bytes })
    | .error e => .error e

/-- Model of `InteractionBroker._decode`: read the first payload byte; for enum
payloads return the first mapping key whose value equals the byte, or the
raw byte number when no key matches; other payload types return the byte. -/
def _decode (d : SignalDefinition) (message : CanMessage) : Value :=
  let payload := fromBytes1 message.data
  if d.payload.type = "enum" then
    match d.payload.mapping.find? (fun p => p.2 == (payload : Int)) with
    | some p => .str p.1
    | none => .int payload
  else .int payload

/-- Model of `config_loader/models.py` `SignalCatalog.get`, over the catalog's
name → definition dictionary: the definition, or the `KeyError` the
catalog raises for an unknown name. -/
def catalogGet (signals : List (String × SignalDefinition)) (name : String) :
    Except Fault SignalDefinition :=
  match signals.lookup name with
  | some d => .ok d
  | none =>
    .error (.keyError
      ("Signal " ++ "\x27" ++ name ++ "\x27" ++ " is not defined in the configuration"))

/-- The mutable state the broker's reads touch: one FIFO receive queue per
bus name (`MockCanPort._rx_queue` of each port the `HalManager` caches).
A bus with no entry has an empty queue. -/
abbrev Buses : Type := List (String × List CanMessage)

/-- The receive queue corresponding to `bus`. -/
def busQueue (buses : Buses) (bus : String) : List CanMessage :=
  (buses.lookup bus).getD []

/-- Replace the receive queue of `bus` (append the entry when absent). -/
def setBusQueue (buses : Buses) (bus : String) (q : List CanMessage) : Buses :=
  if buses.any (fun p => p.1 == bus) then
    buses.map (fun p => if p.1 == bus then (bus, q) else p)
  else buses ++ [(bus, q)]

/-- The receive loop of `InteractionBroker.get_signal` on the port's queue:
pop frames in FIFO order (`MockCanPort.receive`), silently discarding
frames whose id differs from the signal's, until a matching frame is
decoded; an exhausted queue means no matching frame arrives before the
deadline, which the loop surfaces as the `SutFault` timeout.  Returns the
decoded value together with the frames still queued. -/
def getSignalLoop (signal_name : String) (d : SignalDefinition) :
    List CanMessage → Except Fault (Value × List CanMessage)
  | [] => .error (.sutFault ("Did not observe signal " ++ signal_name ++ " before timeout"))
  | m :: rest =>
    if m.can_id = d.can_id then .ok (_decode d m, rest)
    else getSignalLoop signal_name d rest

/-- The receive loop of `InteractionBroker.wait_for_signal`: pop frames in
FIFO order, discarding frames with a foreign id and matching-id frames
whose decoded value differs from `expected_value`, until a frame decodes
to `expected_value`; an exhausted queue means the deadline `timeout_s`
passes with no match, surfaced as the `SutFault` timeout (the message of
the `CanTimeoutError` branch of the loop). -/
def waitForSignalLoop (signal_name : String) (d : SignalDefinition) (expected_value : Value) :
    List CanMessage → Except Fault (List CanMessage)
  | [] =>
    .error (.sutFault
      ("Timeout waiting for " ++ signal_name ++ "=" ++ Value.strOf expected_value
        ++ " on bus " ++ d.bus))
  | m :: rest =>
    if m.can_id = d.can_id then
      if _decode d m = expected_value then .ok rest
      else waitForSignalLoop signal_name d expected_value rest
    else waitForSignalLoop signal_name d expected_value rest

/-- Model of `InteractionBroker.get_signal`: look the signal up in the catalog,
fetch the port of its bus and run the receive loop on that bus's queue. -/
def get_signal (config : List (String × SignalDefinition)) (buses : Buses)
    (signal_name : String) : Except Fault (Value × Buses) :=
  match catalogGet config signal_name with
  | .error e => .error e
  | .ok d =>
    match getSignalLoop signal_name d (busQueue buses d.bus) with
    | .error e => .error e
    | .ok (v, q) => .ok (v, setBusQueue buses d.bus q)

/-- Model of `InteractionBroker.wait_for_signal` with a finite `timeout_s`. -/
def wait_for_signal (config : List (String × SignalDefinition)) (buses : Buses)
    (signal_name : String) (expected_value : Value) : Except Fault Buses :=
  match catalogGet config signal_name with
  | .error e => .error e
  | .ok d =>
    match waitForSignalLoop signal_name d expected_value (busQueue buses d.bus) with
    | .error e => .error e
    | .ok q => .ok (setBusQueue buses d.bus q)

/-- The Python `dict` update underlying the comprehension in
`assert_consistent_signals`: overwrite an existing key in place, append a
new one. -/
def dictInsert (d : List (String × Value)) (k : String) (v : Value) :
    List (String × Value) :=
  if d.any (fun p => p.1 == k) then d.map (fun p => if p.1 == k then (k, v) else p)
  else d ++ [(k, v)]

/-- The dict comprehension
`{name: self.get_signal(name, timeout_s=timeout_s) for name in signal_names}`:
read every named signal sequentially, each read running under its own
timeout on its own bus queue, accumulating the name → value dictionary. -/
def readSignalDict (config : List (String × SignalDefinition)) :
    Buses → List String → List (String × Value) →
    Except Fault (List (String × Value) × Buses)
  | buses, [], acc => .ok (acc, buses)
  | buses, n :: rest, acc =>
    match get_signal config buses n with
    | .error e => .error e
    | .ok (v, b) => readSignalDict config b rest (dictInsert acc n v)

/-- The `", ".join(f"{name}={value!r}" ...)` rendering of the observed
dictionary. -/
def formatObserved (observed : List (String × Value)) : String :=
  String.intercalate ", " (observed.map (fun p => p.1 ++ "=" ++ Value.reprOf p.2))

/-- Model of `InteractionBroker.assert_consistent_signals`: read all named signals
into a dictionary, then fail with `SutFault` when the set of distinct
observed values (`set(observed_values.values())`) has more than one
member. -/
def assert_consistent_signals (config : List (String × SignalDefinition))
    (buses : Buses) (signal_names : List String) : Except Fault Buses :=
  match readSignalDict config buses signal_names [] with
  | .error e => .error e
  | .ok (observed, b) =>
    if ((observed.map Prod.snd).dedup).length > 1 then
      .error (.sutFault ("Signals are inconsistent: " ++ formatObserved observed))
    else .ok b

/-- Model of `InteractionBroker.assert_no_faults`: read each named fault-indicator
signal in order; the first whose value falls outside the healthy set
`(0, "NONE", "INACTIVE", "OK")` raises `EnvironmentFault` naming it. -/
def assert_no_faults (config : List (String × SignalDefinition)) :
    Buses → List String → Except Fault Buses
  | buses, [] => .ok buses
  | buses, n :: rest =>
    match get_signal config buses n with
    | .error e => .error e
    | .ok (v, b) =>
      if v = .int 0 ∨ v = .str "NONE" ∨ v = .str "INACTIVE" ∨ v = .str "OK" then
        assert_no_faults config b rest
      else
        .error (.envFault
          ("Fault indicator " ++ n ++ " reported unhealthy state " ++ Value.reprOf v))

end InteractionBroker

/-- The port variants `HalManager.get_can_port` can build
(`hal/implementations/hil_can_port.py` / `mock_can_port.py`), keyed by
the bus they own. -/
inductive PortKind : Type
  | hil (bus_name : String)
  | mock (bus_name : String)
deriving DecidableEq

/-- Model of `hal/implementations/hal_manager.py` `HalManager`: the stored
execution mode (already upper-cased by `__init__`) and the cache of
created ports, keyed by bus name. -/
structure HalManager : Type where
  mode : String
  can_ports : List (String × PortKind)
deriving DecidableEq

namespace HalManager

/-- Model of `HalManager.__init__(mode, config, logger)`: store `mode.upper()` and
an empty port cache.  The constructor only assigns attributes — it cannot
fail, so it is total; the `Except` return type records exactly that no
mode validation happens here. -/
def init (mode : String) : Except Fault HalManager :=
  .ok { mode := pyUpper mode, can_ports := [] }

/-- Model of `HalManager.get_can_port`: return the cached port for `bus_name` when
present; otherwise create the variant selected by the stored mode (`HIL` →
hardware port, `MOCK`/`SIL` → in-memory port), cache it and return it.
Any other mode raises `CanError`. -/
def get_can_port (m : HalManager) (bus_name : String) :
    Except Fault (PortKind × HalManager) :=
  match m.can_ports.lookup bus_name with
  | some port => .ok (port, m)
  | none =>
    if m.mode = "HIL" then
      let port := PortKind.hil bus_name
      .ok (port, { m with can_ports := m.can_ports ++ [(bus_name, port)] })
    else if m.mode = "MOCK" ∨ m.mode = "SIL" then
      let port := PortKind.mock bus_name
      .ok (port, { m with can_ports := m.can_ports ++ [(bus_name, port)] })
    else .error (.canError ("Unsupported execution mode: " ++ m.mode))

end HalManager

/-- Model of `config_loader/models.py` `PreconditionStep`: one declarative step. -/
structure PreconditionStep : Type where
  action : String
  target : String
  value : Option String := none
deriving DecidableEq

/-- Model of `config_loader/models.py` `PreconditionDefinition` (the `sla` and
`safety` policy blocks are configuration metadata never read by
`PreconditionService.apply` and are omitted). -/
structure PreconditionDefinition : Type where
  name : String
  description : Option String := none
  steps : List PreconditionStep := []
  rollback : List PreconditionStep := []
deriving DecidableEq

instance {ε α : Type} [DecidableEq ε] [DecidableEq α] : DecidableEq (Except ε α) := fun
  | .ok a, .ok b => decidable_of_iff (a = b) (by simp)
  | .ok _, .error _ => .isFalse (by simp)
  | .error _, .ok _ => .isFalse (by simp)
  | .error e, .error f => decidable_of_iff (e = f) (by simp)

namespace PreconditionService

/-- The observable outcome of one `PreconditionService.apply` call:
the forward steps dispatched (in order, stopping at the first failure),
the rollback steps attempted together with each attempt's own outcome
(logged, never propagated), and the value or exception `apply` ends in. -/
structure ApplyOutcome : Type where
  executed : List PreconditionStep
  rollbackRun : List (PreconditionStep × Option Fault)
  result : Except Fault Unit
deriving DecidableEq

/-- The `for step in definition.steps: self._dispatch(...)` loop inside
`apply`'s `try`: dispatch steps in order until one raises.  `dispatch`
abstracts `_dispatch` (the action-table lookup plus the broker call the
handler makes): `none` is a normal return, `some e` a raised exception.
Returns the dispatched steps and the first failure, if any. -/
def runSteps (dispatch : PreconditionStep → Option Fault) :
    List PreconditionStep → List PreconditionStep × Option Fault
  | [] => ([], none)
  | s :: rest =>
    match dispatch s with
    | none =>
      let r := runSteps dispatch rest
      (s :: r.1, r.2)
    | some e => ([s], some e)

/-- Model of `PreconditionService._rollback`: dispatch every rollback step in
order; a step's own failure is logged (recorded in the attempt list) and
never aborts the remaining steps nor escapes `_rollback`. -/
def runRollback (dispatch : PreconditionStep → Option Fault) :
    List PreconditionStep → List (PreconditionStep × Option Fault)
  | [] => []
  | s :: rest => (s, dispatch s) :: runRollback dispatch rest

/-- Model of `PreconditionService.apply(name)`: look the definition up in the
catalog (`PreconditionCatalog.get` raises `KeyError` for an unknown name,
outside the `try`, so it is neither wrapped nor followed by rollback);
then run the forward steps; on a step failure run `_rollback` and raise
`EnvironmentFault` wrapping the original failure and naming the
precondition. -/
def apply (catalog : List (String × PreconditionDefinition))
    (dispatch : PreconditionStep → Option Fault) (name : String) : ApplyOutcome :=
  match catalog.lookup name with
  | none =>
    { executed := []
      rollbackRun := []
      result := .error (.keyError
        ("Precondition " ++ "\x27" ++ name ++ "\x27" ++ " is not defined in the configuration")) }
  | some definition =>
    match runSteps dispatch definition.steps with
    | (done, none) => { executed := done, rollbackRun := [], result := .ok () }
    | (done, some e) =>
      { executed := done
        rollbackRun := runRollback dispatch definition.rollback
        result := .error (.envFault
          ("Precondition " ++ name ++ " failed: " ++ Fault.text e)) }

end PreconditionService

/-! Concrete catalogs, queues and dispatch environments used to instantiate
the theorems below on closed inputs. -/

/-- Fixture: the door-state enum signal of the configuration examples. -/
def doorSignal : SignalDefinition :=
  { name := "Door", bus := "can0", can_id := 0x100
    payload := { type := "enum", mapping := [("OPEN", 1), ("CLOSED", 0)] } }

/-- Fixture: a lock-state enum signal on its own bus. -/
def lockSignal : SignalDefinition :=
  { name := "Lock", bus := "can2", can_id := 0x101
    payload := { type := "enum", mapping := [("OPEN", 1), ("CLOSED", 0)] } }

/-- Fixture: an enum signal in which two symbols share the byte value 1. -/
def aliasedSignal : SignalDefinition :=
  { name := "Status", bus := "can0", can_id := 0x42
    payload := { type := "enum", mapping := [("A", 1), ("B", 1)] } }

/-- Fixture: a signed numeric signal. -/
def tempSignal : SignalDefinition :=
  { name := "Temp", bus := "can1", can_id := 0x20, payload := { type := "int" } }

/-- Fixture: an unsigned numeric signal. -/
def speedSignal : SignalDefinition :=
  { name := "Speed", bus := "can1", can_id := 0x21, payload := { type := "uint" } }

/-- Fixture: two numeric fault-indicator signals on one bus. -/
def fault1Signal : SignalDefinition :=
  { name := "Fault1", bus := "can3", can_id := 0x30, payload := { type := "uint" } }

/-- Fixture: the second fault-indicator signal. -/
def fault2Signal : SignalDefinition :=
  { name := "Fault2", bus := "can3", can_id := 0x31, payload := { type := "uint" } }

/-- Fixture signal catalog, keyed like `SignalCatalog.signals`. -/
def demoConfig : List (String × SignalDefinition) :=
  [("Door", doorSignal), ("Lock", lockSignal), ("Status", aliasedSignal),
   ("Temp", tempSignal), ("Speed", speedSignal),
   ("Fault1", fault1Signal), ("Fault2", fault2Signal)]

/-- Fixture: the three forward steps of the demo precondition. -/
def stepSet : PreconditionStep :=
  { action := "set_signal", target := "Door", value := some "OPEN" }

/-- Fixture: the second forward step, the one the environments below fail. -/
def stepWait : PreconditionStep :=
  { action := "wait_for_signal", target := "Door", value := some "CLOSED" }

/-- Fixture: the third forward step, never reached when `stepWait` fails. -/
def stepAssert : PreconditionStep :=
  { action := "assert_signal", target := "Lock", value := some "CLOSED" }

/-- Fixture: the first declared rollback step. -/
def rollbackA : PreconditionStep :=
  { action := "set_signal", target := "Door", value := some "CLOSED" }

/-- Fixture: the second declared rollback step. -/
def rollbackB : PreconditionStep :=
  { action := "set_signal", target := "Lock", value := some "CLOSED" }

/-- Fixture: a three-step precondition with a two-step rollback. -/
def demoPrecondition : PreconditionDefinition :=
  { name := "vehicle_ready", description := some "demo"
    steps := [stepSet, stepWait, stepAssert], rollback := [rollbackA, rollbackB] }

/-- Fixture precondition catalog, keyed like `PreconditionCatalog.preconditions`. -/
def demoCatalog : List (String × PreconditionDefinition) :=
  [("vehicle_ready", demoPrecondition)]

/-- Fixture environment: every `wait_for_signal` dispatch raises, every
other dispatch returns normally. -/
def demoDispatch : PreconditionStep → Option Fault := fun s =>
  if s.action = "wait_for_signal" then some (.sutFault "boom") else none

/-- Fixture environment: `wait_for_signal` raises as above, and the first
declared rollback step itself raises. -/
def faultyRollbackDispatch : PreconditionStep → Option Fault := fun s =>
  if s.action = "wait_for_signal" then some (.sutFault "boom")
  else if s = rollbackA then some (.canError "bus offline")
  else none

/-- Fixture frame: the aliased status signal reporting byte 1. -/
def msgStatus1 : CanMessage := { can_id := 0x42, data := [1] }

/-- Fixture frame: the door signal reporting `CLOSED` (byte 0). -/
def msgDoorClosed : CanMessage := { can_id := 0x100, data := [0] }

/-- Fixture frame: the door signal reporting `OPEN` (byte 1). -/
def msgDoorOpen : CanMessage := { can_id := 0x100, data := [1] }

/-- Fixture frame: the lock signal reporting `OPEN` (byte 1). -/
def msgLockOpen : CanMessage := { can_id := 0x101, data := [1] }

/-- Fixture frame: the lock signal reporting `CLOSED` (byte 0). -/
def msgLockClosed : CanMessage := { can_id := 0x101, data := [0] }

/-- Fixture frame: the first fault indicator reporting the healthy 0. -/
def msgFaultZero : CanMessage := { can_id := 0x30, data := [0] }

/-- Fixture frame: the second fault indicator reporting the unhealthy 5. -/
def msgFaultFive : CanMessage := { can_id := 0x31, data := [5] }

/-! Helper lemmas shared across the claim theorems. -/

theorem runRollback_map_fst (dispatch : PreconditionStep → Option Fault)
    (steps : List PreconditionStep) :
    (PreconditionService.runRollback dispatch steps).map Prod.fst = steps := by
  induction steps with
  | nil => rfl
  | cons s rest ih => simp [PreconditionService.runRollback, ih]

theorem dedup_length_le_one_iff {α : Type} [DecidableEq α] (l : List α) :
    l.dedup.length ≤ 1 ↔ ∀ a ∈ l, ∀ b ∈ l, a = b := by
  constructor
  · intro h a ha b hb
    have ha' : a ∈ l.dedup := List.mem_dedup.mpr ha
    have hb' : b ∈ l.dedup := List.mem_dedup.mpr hb
    cases hd : l.dedup with
    | nil => rw [hd] at ha'; simp at ha'
    | cons x xs =>
      rw [hd] at h ha' hb'
      cases xs with
      | nil =>
        simp only [List.mem_singleton] at ha' hb'
        rw [ha', hb']
      | cons y ys => simp at h
  · intro h
    by_contra hgt
    push_neg at hgt
    cases hd : l.dedup with
    | nil => rw [hd] at hgt; simp at hgt
    | cons x xs =>
      cases xs with
      | nil => rw [hd] at hgt; simp at hgt
      | cons y ys =>
        have hnd := l.nodup_dedup
        rw [hd] at hnd
        have hx : x ∈ l := List.mem_dedup.mp (by rw [hd]; simp)
        have hy : y ∈ l := List.mem_dedup.mp (by rw [hd]; simp)
        have hxy : x = y := h x hx y hy
        rw [List.nodup_cons] at hnd
        exact hnd.1 (by rw [hxy]; simp)

/-! Claim C1: a three-step precondition whose second step fails. -/

/-- C1. For every precondition definition with exactly three steps whose
second step's handler raises, `apply(name)` dispatches step 1 (its effects
run) and step 2 but never step 3, attempts every declared rollback step in
declaration order, and ends in an `EnvironmentFault` whose message names
the precondition. -/
theorem apply_three_step_failure
    (catalog : List (String × PreconditionDefinition))
    (dispatch : PreconditionStep → Option Fault) (name : String)
    (definition : PreconditionDefinition) (s1 s2 s3 : PreconditionStep) (e : Fault)
    (hcat : catalog.lookup name = some definition)
    (hsteps : definition.steps = [s1, s2, s3])
    (h1 : dispatch s1 = none)
    (h2 : dispatch s2 = some e) :
    (PreconditionService.apply catalog dispatch name).executed = [s1, s2] ∧
    (PreconditionService.apply catalog dispatch name).rollbackRun.map Prod.fst
      = definition.rollback ∧
    (PreconditionService.apply catalog dispatch name).result
      = .error (.envFault ("Precondition " ++ name ++ " failed: " ++ Fault.text e)) := by
  have hrun : PreconditionService.runSteps dispatch definition.steps
      = ([s1, s2], some e) := by
    rw [hsteps]
    simp [PreconditionService.runSteps, h1, h2]
  simp only [PreconditionService.apply, hcat, hrun]
  exact ⟨trivial, runRollback_map_fst dispatch definition.rollback, trivial⟩

/-- Witness for C1 on the fixture catalog: the failing environment
`demoDispatch` raises on the second step `stepWait`. -/
theorem apply_three_step_failure_witness :
    (PreconditionService.apply demoCatalog demoDispatch "vehicle_ready").executed
      = [stepSet, stepWait] ∧
    (PreconditionService.apply demoCatalog demoDispatch "vehicle_ready").rollbackRun.map
        Prod.fst = demoPrecondition.rollback ∧
    (PreconditionService.apply demoCatalog demoDispatch "vehicle_ready").result
      = .error (.envFault ("Precondition " ++ "vehicle_ready" ++ " failed: "
          ++ Fault.text (.sutFault "boom"))) :=
  apply_three_step_failure demoCatalog demoDispatch "vehicle_ready" demoPrecondition
    stepSet stepWait stepAssert (.sutFault "boom") (by decide) rfl (by decide) (by decide)

/-! Claim C5: best-effort rollback, original failure wins. -/

/-- C5. Whenever the forward pass of a precondition fails, every declared
rollback step is attempted in order — also when an earlier rollback step
itself raises, since each attempt's failure is only recorded (logged),
never propagated — and the error `apply` finally raises is an
`EnvironmentFault` wrapping the original step failure `e`, not any
rollback failure. -/
theorem apply_rollback_best_effort
    (catalog : List (String × PreconditionDefinition))
    (dispatch : PreconditionStep → Option Fault) (name : String)
    (definition : PreconditionDefinition) (done : List PreconditionStep) (e : Fault)
    (hcat : catalog.lookup name = some definition)
    (hrun : PreconditionService.runSteps dispatch definition.steps = (done, some e)) :
    (PreconditionService.apply catalog dispatch name).rollbackRun
      = PreconditionService.runRollback dispatch definition.rollback ∧
    (PreconditionService.apply catalog dispatch name).rollbackRun.map Prod.fst
      = definition.rollback ∧
    (PreconditionService.apply catalog dispatch name).result
      = .error (.envFault ("Precondition " ++ name ++ " failed: " ++ Fault.text e)) := by
  simp only [PreconditionService.apply, hcat, hrun]
  exact ⟨trivial, runRollback_map_fst dispatch definition.rollback, trivial⟩

/-- Witness for C5: under `faultyRollbackDispatch` the first rollback step
raises (`canError "bus offline"`), the second is still attempted, and
`apply` ends in the `EnvironmentFault` wrapping the original `sutFault`. -/
theorem apply_rollback_best_effort_witness :
    (PreconditionService.apply demoCatalog faultyRollbackDispatch "vehicle_ready").rollbackRun
      = [(rollbackA, some (.canError "bus offline")), (rollbackB, none)] ∧
    (PreconditionService.apply demoCatalog faultyRollbackDispatch
        "vehicle_ready").rollbackRun.map Prod.fst = [rollbackA, rollbackB] ∧
    (PreconditionService.apply demoCatalog faultyRollbackDispatch "vehicle_ready").result
      = .error (.envFault ("Precondition " ++ "vehicle_ready" ++ " failed: "
          ++ Fault.text (.sutFault "boom"))) := by
  have h := apply_rollback_best_effort demoCatalog faultyRollbackDispatch "vehicle_ready"
    demoPrecondition [stepSet, stepWait] (.sutFault "boom") (by decide) (by decide)
  exact ⟨h.1.trans (by decide), h.2.1.trans (by decide), h.2.2⟩

/-! Claim C10: an unknown precondition name. -/

/-- C10. For every name absent from the precondition catalog, `apply(name)`
raises the catalog's `KeyError` naming the precondition, before any step
is dispatched and without attempting any rollback step; the error is not
wrapped as an `EnvironmentFault`. -/
theorem apply_unknown_name
    (catalog : List (String × PreconditionDefinition))
    (dispatch : PreconditionStep → Option Fault) (name : String)
    (hcat : catalog.lookup name = none) :
    PreconditionService.apply catalog dispatch name =
      { executed := []
        rollbackRun := []
        result := .error (.keyError ("Precondition " ++ "\x27" ++ name ++ "\x27"
          ++ " is not defined in the configuration")) } := by
  simp only [PreconditionService.apply, hcat]

/-- Witness for C10 at the absent name `"battery_ready"`. -/
theorem apply_unknown_name_witness :
    PreconditionService.apply demoCatalog demoDispatch "battery_ready" =
      { executed := []
        rollbackRun := []
        result := .error (.keyError ("Precondition " ++ "\x27" ++ "battery_ready" ++ "\x27"
          ++ " is not defined in the configuration")) } :=
  apply_unknown_name demoCatalog demoDispatch "battery_ready" (by decide)

/-! Claim C4 (corrected): an unknown execution mode does not fail at
`HalManager` construction; it raises `CanError` at `get_can_port`. -/

/-- Counterexample to C4 as stated: constructing the registry with the
unrecognized mode `"TURBO"` succeeds (no error is raised before any
`get_can_port` call), and only the subsequent `get_can_port` call raises
the `CanError`. -/
theorem hal_manager_unknown_mode_counterexample :
    HalManager.init "TURBO" = .ok { mode := "TURBO", can_ports := [] } ∧
    HalManager.get_can_port { mode := "TURBO", can_ports := [] } "can0"
      = .error (.canError ("Unsupported execution mode: " ++ "TURBO")) := by
  decide

/-- C4 amended. Constructing the registry never fails, whatever the mode
string: `__init__` only stores the upper-cased mode.  A mode whose
upper-cased form is none of `HIL`, `MOCK`, `SIL` instead raises a
`CanError` at every `get_can_port` call on the freshly constructed
registry. -/
theorem hal_manager_unknown_mode_amended (mode : String) (bus_name : String)
    (hmode : ¬(pyUpper mode = "HIL" ∨ pyUpper mode = "MOCK" ∨ pyUpper mode = "SIL")) :
    HalManager.init mode = .ok { mode := pyUpper mode, can_ports := [] } ∧
    HalManager.get_can_port { mode := pyUpper mode, can_ports := [] } bus_name
      = .error (.canError ("Unsupported execution mode: " ++ pyUpper mode)) := by
  push_neg at hmode
  refine ⟨rfl, ?_⟩
  simp only [HalManager.get_can_port, List.lookup]
  rw [if_neg hmode.1, if_neg]
  intro h
  rcases h with h | h
  · exact hmode.2.1 h
  · exact hmode.2.2 h

/-- Witness for the amended C4 at mode `"turbo"` and bus `"can0"`. -/
theorem hal_manager_unknown_mode_amended_witness :
    HalManager.init "turbo" = .ok { mode := pyUpper "turbo", can_ports := [] } ∧
    HalManager.get_can_port { mode := pyUpper "turbo", can_ports := [] } "can0"
      = .error (.canError ("Unsupported execution mode: " ++ pyUpper "turbo")) :=
  hal_manager_unknown_mode_amended "turbo" "can0" (by decide)

/-! Claim C2 (corrected): the enum round-trip law fails on aliased byte
values; it holds for upper-case symbols whose byte value is in range and
not claimed by an earlier key. -/

/-- Counterexample to C2 as stated: in `aliasedSignal` both symbols `"A"`
and `"B"` are present in the mapping with byte value `1`, yet
`decode(encode("B"))` yields `"A"`, the first key carrying that byte —
not `"B"`. -/
theorem enum_round_trip_counterexample :
    (InteractionBroker._encode aliasedSignal (.str "B")).map
        (InteractionBroker._decode aliasedSignal) = .ok (.str "A") ∧
    Value.str "A" ≠ Value.str "B" := by decide

/-- C2 amended. For every enum signal and every symbol `v` present in its
mapping such that `v` is unchanged by upper-casing, its byte value lies in
[0, 255], and `v` is the first mapping key carrying that byte value,
`decode(encode(v)) = v`. -/
theorem enum_round_trip_amended (d : SignalDefinition) (v : String) (n : Int)
    (htype : d.payload.type = "enum")
    (hupper : pyUpper v = v)
    (hlook : d.payload.mapping.lookup v = some n)
    (hlo : 0 ≤ n) (hhi : n < 256)
    (hfirst : d.payload.mapping.find? (fun p => p.2 == n) = some (v, n)) :
    (InteractionBroker._encode d (.str v)).map (InteractionBroker._decode d)
      = .ok (.str v) := by
  have hstr : Value.strOf (Value.str v) = v := rfl
  have hnlt : ¬ n < 0 := not_lt.mpr hlo
  have hnle : ¬ 256 ≤ n := not_le.mpr hhi
  have henc : InteractionBroker._encode d (.str v)
      = .ok { can_id := d.can_id, data := [n.toNat] } := by
    simp [InteractionBroker._encode, hstr, hupper, hlook, htype,
      InteractionBroker.toBytes1, hnlt, hnle, Except.map]
  rw [henc]
  have hdec : InteractionBroker._decode d { can_id := d.can_id, data := [n.toNat] }
      = .str v := by
    simp [InteractionBroker._decode, InteractionBroker.fromBytes1, htype,
      Int.toNat_of_nonneg hlo, hfirst]
  simp [Except.map, hdec]

/-- Witness for the amended C2: `"OPEN"` on the door signal round-trips. -/
theorem enum_round_trip_amended_witness :
    (InteractionBroker._encode doorSignal (.str "OPEN")).map
        (InteractionBroker._decode doorSignal) = .ok (.str "OPEN") :=
  enum_round_trip_amended doorSignal "OPEN" 1 rfl (by decide) (by decide)
    (by decide) (by decide) (by decide)

/-! Claim C3 (corrected): the numeric round-trip law holds on [0, 255]
for both `uint` and `int` payloads, and values outside [0, 255] are
rejected by `encode` with an `OverflowError`; but negative values of the
signed one-byte range [-128, -1] never round-trip, because the payload is
always rendered as one unsigned byte. -/

/-- Counterexample to C3 as stated: on the signed signal `tempSignal`,
encoding the in-range signed value `-1` raises `OverflowError` (the
unsigned `to_bytes` rejects negatives), so `decode(encode(-1))` is not
`-1`. -/
theorem numeric_round_trip_counterexample :
    InteractionBroker._encode tempSignal (.int (-1))
      = .error (.overflowError "cannot convert negative int to unsigned") ∧
    (InteractionBroker._encode tempSignal (.int (-1))).map
        (InteractionBroker._decode tempSignal) ≠ .ok (.int (-1)) := by decide

/-- C3 amended. For every non-enum (`uint` or `int`) signal and every
integer `v`: if `0 ≤ v ≤ 255` then `decode(encode(v)) = v`; `encode`
rejects every `v` outside [0, 255] — negative values included, so the
signed range [-128, -1] is rejected, not round-tripped — with an explicit
`OverflowError` rather than silently truncating. -/
theorem numeric_round_trip_amended (d : SignalDefinition) (v : Int)
    (htype : ¬ d.payload.type = "enum") :
    ((0 ≤ v ∧ v < 256) →
      (InteractionBroker._encode d (.int v)).map (InteractionBroker._decode d)
        = .ok (.int v)) ∧
    (v < 0 → InteractionBroker._encode d (.int v)
        = .error (.overflowError "cannot convert negative int to unsigned")) ∧
    (256 ≤ v → InteractionBroker._encode d (.int v)
        = .error (.overflowError "int too big to convert")) := by
  have hval : InteractionBroker.toIntVal (Value.int v) = .ok v := rfl
  refine ⟨fun hv => ?_, fun hv => ?_, fun hv => ?_⟩
  · have hnlt : ¬ v < 0 := not_lt.mpr hv.1
    have hnle : ¬ 256 ≤ v := not_le.mpr hv.2
    have henc : InteractionBroker._encode d (.int v)
        = .ok { can_id := d.can_id, data := [v.toNat] } := by
      simp [InteractionBroker._encode, hval, htype,
        InteractionBroker.toBytes1, hnlt, hnle, Except.map]
    rw [henc]
    have hdec : InteractionBroker._decode d { can_id := d.can_id, data := [v.toNat] }
        = .int v := by
      simp [InteractionBroker._decode, InteractionBroker.fromBytes1, htype,
        Int.toNat_of_nonneg hv.1]
    simp [Except.map, hdec]
  · simp [InteractionBroker._encode, hval, htype, InteractionBroker.toBytes1, hv, Except.map]
  · have hnlt : ¬ v < 0 := not_lt.mpr (le_trans (by norm_num) hv)
    simp [InteractionBroker._encode, hval, htype, InteractionBroker.toBytes1, hnlt, hv,
      Except.map]

/-- Witness for the amended C3 at the unsigned signal and `v = 255`,
plus the rejection branches at `-1` and `256`. -/
theorem numeric_round_trip_amended_witness :
    ((0 ≤ (255 : Int) ∧ (255 : Int) < 256) →
      (InteractionBroker._encode speedSignal (.int 255)).map
          (InteractionBroker._decode speedSignal) = .ok (.int 255)) ∧
    ((255 : Int) < 0 → InteractionBroker._encode speedSignal (.int 255)
        = .error (.overflowError "cannot convert negative int to unsigned")) ∧
    ((256 : Int) ≤ 255 → InteractionBroker._encode speedSignal (.int 255)
        = .error (.overflowError "int too big to convert")) :=
  numeric_round_trip_amended speedSignal 255 (by decide)

/-! Helper lemmas for the receive loops. -/

theorem waitForSignalLoop_first_match (signal_name : String) (d : SignalDefinition)
    (expected : Value) (m : CanMessage) (post : List CanMessage)
    (hm : m.can_id = d.can_id) (hv : InteractionBroker._decode d m = expected) :
    ∀ pre : List CanMessage,
      (∀ x ∈ pre, ¬(x.can_id = d.can_id ∧ InteractionBroker._decode d x = expected)) →
      InteractionBroker.waitForSignalLoop signal_name d expected (pre ++ m :: post)
        = .ok post := by
  intro pre
  induction pre with
  | nil =>
    intro _
    simp [InteractionBroker.waitForSignalLoop, hm, hv]
  | cons x xs ih =>
    intro hpre
    have hx := hpre x (by simp)
    have hrest : ∀ y ∈ xs,
        ¬(y.can_id = d.can_id ∧ InteractionBroker._decode d y = expected) :=
      fun y hy => hpre y (by simp [hy])
    by_cases hid : x.can_id = d.can_id
    · have hval : ¬ InteractionBroker._decode d x = expected :=
        fun hv' => hx ⟨hid, hv'⟩
      simpa [InteractionBroker.waitForSignalLoop, hid, hval] using ih hrest
    · simpa [InteractionBroker.waitForSignalLoop, hid] using ih hrest

theorem waitForSignalLoop_no_match (signal_name : String) (d : SignalDefinition)
    (expected : Value) :
    ∀ q : List CanMessage,
      (∀ x ∈ q, ¬(x.can_id = d.can_id ∧ InteractionBroker._decode d x = expected)) →
      InteractionBroker.waitForSignalLoop signal_name d expected q
        = .error (.sutFault ("Timeout waiting for " ++ signal_name ++ "="
            ++ Value.strOf expected ++ " on bus " ++ d.bus)) := by
  intro q
  induction q with
  | nil => intro _; rfl
  | cons x xs ih =>
    intro hq
    have hx := hq x (by simp)
    have hrest : ∀ y ∈ xs,
        ¬(y.can_id = d.can_id ∧ InteractionBroker._decode d y = expected) :=
      fun y hy => hq y (by simp [hy])
    by_cases hid : x.can_id = d.can_id
    · have hval : ¬ InteractionBroker._decode d x = expected :=
        fun hv' => hx ⟨hid, hv'⟩
      simpa [InteractionBroker.waitForSignalLoop, hid, hval] using ih hrest
    · simpa [InteractionBroker.waitForSignalLoop, hid] using ih hrest

/-! Claim C6: `wait_for_signal` returns on the first matching frame and
raises `SutFault` when the deadline passes with no match. -/

/-- C6. For a signal resolving to definition `d`: (a) when the frames
arriving on `d`'s bus before the deadline are `pre ++ m :: post` where no
frame of `pre` both carries `d`'s frame id and decodes to the expected
value but `m` does, `wait_for_signal` returns normally as soon as `m`
arrives, having consumed exactly `pre ++ [m]` (frames with other ids, and
matching-id frames with other decoded values, are discarded and the wait
continues); (b) when no arriving frame matches, the deadline passes and
`wait_for_signal` raises the `SutFault` timeout. -/
theorem wait_for_signal_spec (config : List (String × SignalDefinition))
    (signal_name : String) (d : SignalDefinition) (expected : Value)
    (hcat : InteractionBroker.catalogGet config signal_name = .ok d) :
    (∀ (buses : InteractionBroker.Buses) (pre : List CanMessage) (m : CanMessage)
        (post : List CanMessage),
      InteractionBroker.busQueue buses d.bus = pre ++ m :: post →
      (∀ x ∈ pre, ¬(x.can_id = d.can_id ∧ InteractionBroker._decode d x = expected)) →
      m.can_id = d.can_id → InteractionBroker._decode d m = expected →
      InteractionBroker.wait_for_signal config buses signal_name expected
        = .ok (InteractionBroker.setBusQueue buses d.bus post)) ∧
    (∀ buses : InteractionBroker.Buses,
      (∀ x ∈ InteractionBroker.busQueue buses d.bus,
        ¬(x.can_id = d.can_id ∧ InteractionBroker._decode d x = expected)) →
      InteractionBroker.wait_for_signal config buses signal_name expected
        = .error (.sutFault ("Timeout waiting for " ++ signal_name ++ "="
            ++ Value.strOf expected ++ " on bus " ++ d.bus))) := by
  constructor
  · intro buses pre m post hq hpre hm hv
    have hloop := waitForSignalLoop_first_match signal_name d expected m post hm hv pre hpre
    simp [InteractionBroker.wait_for_signal, hcat, hq, hloop]
  · intro buses hq
    have hloop := waitForSignalLoop_no_match signal_name d expected
      (InteractionBroker.busQueue buses d.bus) hq
    simp [InteractionBroker.wait_for_signal, hcat, hloop]

/-- Witness for C6 on the door signal: the wait skips a foreign-id frame
and a non-matching door frame, returns at the matching frame leaving the
tail queued; with no matching frame queued it raises the `SutFault`
timeout. -/
theorem wait_for_signal_spec_witness :
    InteractionBroker.wait_for_signal demoConfig
        [("can0", [msgStatus1, msgDoorClosed, msgDoorOpen, msgDoorClosed])]
        "Door" (.str "OPEN")
      = .ok (InteractionBroker.setBusQueue
          [("can0", [msgStatus1, msgDoorClosed, msgDoorOpen, msgDoorClosed])]
          doorSignal.bus [msgDoorClosed]) ∧
    InteractionBroker.wait_for_signal demoConfig
        [("can0", [msgStatus1, msgDoorClosed])] "Door" (.str "OPEN")
      = .error (.sutFault ("Timeout waiting for " ++ "Door" ++ "="
          ++ Value.strOf (.str "OPEN") ++ " on bus " ++ doorSignal.bus)) :=
  ⟨(wait_for_signal_spec demoConfig "Door" doorSignal (.str "OPEN") (by decide)).1
      [("can0", [msgStatus1, msgDoorClosed, msgDoorOpen, msgDoorClosed])]
      [msgStatus1, msgDoorClosed] msgDoorOpen [msgDoorClosed]
      (by decide) (by decide) (by decide) (by decide),
   (wait_for_signal_spec demoConfig "Door" doorSignal (.str "OPEN") (by decide)).2
      [("can0", [msgStatus1, msgDoorClosed])] (by decide)⟩

/-! Claim C7: `get_signal` consumes and discards frames with foreign ids. -/

/-- C7. When the queue of the signal's bus holds a frame `a` whose id
differs from the signal's frame id followed by a frame `b` that carries
it, `get_signal` returns `b`'s decoded value — not `a`'s — and leaves
only the frames after `b` queued: `a` is consumed and silently discarded,
never requeued. -/
theorem get_signal_discards_foreign_ids (config : List (String × SignalDefinition))
    (buses : InteractionBroker.Buses) (signal_name : String) (d : SignalDefinition)
    (a b : CanMessage) (rest : List CanMessage)
    (hcat : InteractionBroker.catalogGet config signal_name = .ok d)
    (hq : InteractionBroker.busQueue buses d.bus = a :: b :: rest)
    (ha : ¬ a.can_id = d.can_id)
    (hb : b.can_id = d.can_id) :
    InteractionBroker.get_signal config buses signal_name
      = .ok (InteractionBroker._decode d b,
          InteractionBroker.setBusQueue buses d.bus rest) := by
  simp [InteractionBroker.get_signal, hcat, hq, InteractionBroker.getSignalLoop, ha, hb]

/-- Witness for C7: with a status frame (id `0x42`) queued ahead of a door
frame (id `0x100`) on `can0`, reading `"Door"` yields the door frame's
value `OPEN`, with the status frame gone from the queue. -/
theorem get_signal_discards_foreign_ids_witness :
    InteractionBroker.get_signal demoConfig [("can0", [msgStatus1, msgDoorOpen])] "Door"
      = .ok (InteractionBroker._decode doorSignal msgDoorOpen,
          InteractionBroker.setBusQueue [("can0", [msgStatus1, msgDoorOpen])]
            doorSignal.bus []) :=
  get_signal_discards_foreign_ids demoConfig [("can0", [msgStatus1, msgDoorOpen])]
    "Door" doorSignal msgStatus1 msgDoorOpen [] (by decide) (by decide) (by decide)
    (by decide)

/-! Claim C8: cross-signal consistency check. -/

/-- C8. When reading the named signals sequentially — each
`get_signal` under its own timeout, threading the bus queues — succeeds
with the observed dictionary `observed`, `assert_consistent_signals`
returns normally exactly when all observed values agree, and raises a
`SutFault` naming the observations whenever two of them differ (the set
of distinct decoded values has more than one member). -/
theorem assert_consistent_signals_spec (config : List (String × SignalDefinition))
    (buses b : InteractionBroker.Buses) (signal_names : List String)
    (observed : List (String × Value))
    (hread : InteractionBroker.readSignalDict config buses signal_names []
      = .ok (observed, b)) :
    (InteractionBroker.assert_consistent_signals config buses signal_names = .ok b
      ↔ ∀ p ∈ observed, ∀ q ∈ observed, p.2 = q.2) ∧
    ((∃ p ∈ observed, ∃ q ∈ observed, p.2 ≠ q.2) →
      InteractionBroker.assert_consistent_signals config buses signal_names
        = .error (.sutFault ("Signals are inconsistent: "
            ++ InteractionBroker.formatObserved observed))) := by
  have hdedup := dedup_length_le_one_iff (observed.map Prod.snd)
  have hvals : (∀ a ∈ observed.map Prod.snd, ∀ c ∈ observed.map Prod.snd, a = c)
      ↔ ∀ p ∈ observed, ∀ q ∈ observed, p.2 = q.2 := by
    constructor
    · intro h p hp q hq
      exact h p.2 (List.mem_map_of_mem Prod.snd hp) q.2 (List.mem_map_of_mem Prod.snd hq)
    · intro h a ha c hc
      obtain ⟨p, hp, rfl⟩ := List.mem_map.mp ha
      obtain ⟨q, hq, rfl⟩ := List.mem_map.mp hc
      exact h p hp q hq
  have herr : (observed.map Prod.snd).dedup.length > 1 →
      InteractionBroker.assert_consistent_signals config buses signal_names
        = .error (.sutFault ("Signals are inconsistent: "
            ++ InteractionBroker.formatObserved observed)) := by
    intro hlen
    simp only [InteractionBroker.assert_consistent_signals, hread]
    rw [if_pos hlen]
  have hok : ¬ (observed.map Prod.snd).dedup.length > 1 →
      InteractionBroker.assert_consistent_signals config buses signal_names = .ok b := by
    intro hlen
    simp only [InteractionBroker.assert_consistent_signals, hread]
    rw [if_neg hlen]
  constructor
  · constructor
    · intro heq
      by_cases hlen : (observed.map Prod.snd).dedup.length > 1
      · rw [herr hlen] at heq
        exact absurd heq (by simp)
      · exact hvals.mp (hdedup.mp (by omega))
    · intro hall
      have hle := hdedup.mpr (hvals.mpr hall)
      exact hok (by omega)
  · rintro ⟨p, hp, q, hq, hne⟩
    have hlen : (observed.map Prod.snd).dedup.length > 1 := by
      by_contra hle
      exact hne (hvals.mp (hdedup.mp (by omega)) p hp q hq)
    exact herr hlen

/-- Witness for C8: door and lock both `OPEN` passes; door `OPEN` against
lock `CLOSED` raises the `SutFault` naming both observations. -/
theorem assert_consistent_signals_spec_witness :
    InteractionBroker.assert_consistent_signals demoConfig
        [("can0", [msgDoorOpen]), ("can2", [msgLockOpen])] ["Door", "Lock"]
      = .ok [("can0", []), ("can2", [])] ∧
    InteractionBroker.assert_consistent_signals demoConfig
        [("can0", [msgDoorOpen]), ("can2", [msgLockClosed])] ["Door", "Lock"]
      = .error (.sutFault ("Signals are inconsistent: "
          ++ InteractionBroker.formatObserved
              [("Door", .str "OPEN"), ("Lock", .str "CLOSED")])) :=
  ⟨(assert_consistent_signals_spec demoConfig
      [("can0", [msgDoorOpen]), ("can2", [msgLockOpen])] [("can0", []), ("can2", [])]
      ["Door", "Lock"] [("Door", .str "OPEN"), ("Lock", .str "OPEN")]
      (by decide)).1.mpr (by decide),
   (assert_consistent_signals_spec demoConfig
      [("can0", [msgDoorOpen]), ("can2", [msgLockClosed])] [("can0", []), ("can2", [])]
      ["Door", "Lock"] [("Door", .str "OPEN"), ("Lock", .str "CLOSED")]
      (by decide)).2
      ⟨("Door", .str "OPEN"), by decide, ("Lock", .str "CLOSED"), by decide, by decide⟩⟩

/-! Claim C9: fault indicators are checked in order against the healthy
set `(0, "NONE", "INACTIVE", "OK")`, stopping at the first unhealthy one. -/

theorem assert_no_faults_append (config : List (String × SignalDefinition))
    (l1 l2 : List String) :
    ∀ buses : InteractionBroker.Buses,
      InteractionBroker.assert_no_faults config buses (l1 ++ l2)
        = (InteractionBroker.assert_no_faults config buses l1).bind
            (fun bs => InteractionBroker.assert_no_faults config bs l2) := by
  induction l1 with
  | nil =>
    intro buses
    simp [InteractionBroker.assert_no_faults, Except.bind]
  | cons n ns ih =>
    intro buses
    cases heq : InteractionBroker.get_signal config buses n with
    | error e => simp [InteractionBroker.assert_no_faults, heq, Except.bind]
    | ok vb =>
      obtain ⟨v, bs⟩ := vb
      by_cases hh : v = .int 0 ∨ v = .str "NONE" ∨ v = .str "INACTIVE" ∨ v = .str "OK"
      · simpa [InteractionBroker.assert_no_faults, heq, hh, Except.bind] using ih bs
      · simp [InteractionBroker.assert_no_faults, heq, hh, Except.bind]

/-- C9. After the earlier fault indicators `pre` have all been read and
found healthy, reading indicator `n` yields value `v`: when `v` is one of
the accepted healthy values `0`, `"NONE"`, `"INACTIVE"`, `"OK"` the check
continues with the remaining indicators; for every other `v` the check
stops there — whatever indicators follow — raising an `EnvironmentFault`
naming `n` and the unhealthy value. -/
theorem assert_no_faults_spec (config : List (String × SignalDefinition))
    (buses buses' b2 : InteractionBroker.Buses) (pre post : List String)
    (n : String) (v : Value)
    (hpre : InteractionBroker.assert_no_faults config buses pre = .ok buses')
    (hn : InteractionBroker.get_signal config buses' n = .ok (v, b2)) :
    ((v = .int 0 ∨ v = .str "NONE" ∨ v = .str "INACTIVE" ∨ v = .str "OK") →
      InteractionBroker.assert_no_faults config buses (pre ++ n :: post)
        = InteractionBroker.assert_no_faults config b2 post) ∧
    (¬(v = .int 0 ∨ v = .str "NONE" ∨ v = .str "INACTIVE" ∨ v = .str "OK") →
      InteractionBroker.assert_no_faults config buses (pre ++ n :: post)
        = .error (.envFault ("Fault indicator " ++ n ++ " reported unhealthy state "
            ++ Value.reprOf v))) := by
  constructor <;> intro hh <;>
    rw [assert_no_faults_append config pre (n :: post) buses] <;>
    simp [hpre, Except.bind, InteractionBroker.assert_no_faults, hn, hh]

/-- Witness for C9 on the `can3` fault indicators: after `Fault1` reads
the healthy 0, `Fault2` reads the unhealthy 5 and the check raises the
`EnvironmentFault` naming `Fault2` without touching the trailing name;
the healthy branch continues past `Fault1`. -/
theorem assert_no_faults_spec_witness :
    (InteractionBroker.assert_no_faults demoConfig
        [("can3", [msgFaultZero, msgFaultFive])] (["Fault1"] ++ "Fault2" :: ["Missing"])
      = .error (.envFault ("Fault indicator " ++ "Fault2"
          ++ " reported unhealthy state " ++ Value.reprOf (.int 5)))) ∧
    (InteractionBroker.assert_no_faults demoConfig
        [("can3", [msgFaultZero, msgFaultFive])] ([] ++ "Fault1" :: ["Fault2"])
      = InteractionBroker.assert_no_faults demoConfig
          [("can3", [msgFaultFive])] ["Fault2"]) :=
  ⟨(assert_no_faults_spec demoConfig [("can3", [msgFaultZero, msgFaultFive])]
      [("can3", [msgFaultFive])] [("can3", [])] ["Fault1"] ["Missing"] "Fault2" (.int 5)
      (by decide) (by decide)).2 (by decide),
   (assert_no_faults_spec demoConfig [("can3", [msgFaultZero, msgFaultFive])]
      [("can3", [msgFaultZero, msgFaultFive])] [("can3", [msgFaultFive])] [] ["Fault2"]
      "Fault1" (.int 0) (by decide) (by decide)).1 (by decide)⟩
